import Mathlib

/-!
Verification of the qa-kit core (src/core/failure-classifier.ts,
src/core/page-health.ts, src/core/evidence-collector.ts) against its
natural-language specification.  The TypeScript code is shallowly embedded:
JavaScript numbers are modelled as `Int`/`Rat`, optional values as `Option`,
thrown exceptions as `Except`, and JavaScript truthiness (`||`, `&&`,
optional chaining) is made explicit in small helper functions.
-/

/-- JavaScript `String.prototype.startsWith` over character lists. -/
def charsPrefixOf : List Char → List Char → Bool
  | [], _ => true
  | _ :: _, [] => false
  | a :: as, b :: bs => a == b && charsPrefixOf as bs

/-- Substring occurrence over character lists. -/
def charsIncludes (sub : List Char) : List Char → Bool
  | [] => charsPrefixOf sub []
  | a :: t => charsPrefixOf sub (a :: t) || charsIncludes sub t

/-- JavaScript `s.includes(sub)` (case-sensitive substring test). -/
def strIncludes (s sub : String) : Bool :=
  charsIncludes sub.toList s.toList

/-- JavaScript `s?.includes(sub)` where `s` may be `undefined`
(an `undefined` receiver yields `undefined`, which is falsy). -/
def optIncludes (s : Option String) (sub : String) : Bool :=
  match s with
  | some str => strIncludes str sub
  | none => false

namespace Classifier

/-- `NetworkFailure` from src/core/failure-classifier.ts. -/
structure NetworkFailure where
  url : String
  status : ℤ
  statusText : String
  failure : Option String
deriving DecidableEq

/-- `ConsoleError` from src/core/failure-classifier.ts. -/
structure ConsoleError where
  type : String
  text : String
  location : Option String
  timestamp : ℤ
deriving DecidableEq

/-- `PerformanceMetrics.navigation` from src/core/failure-classifier.ts. -/
structure NavigationTiming where
  loadEventEnd : ℚ
  domContentLoaded : ℚ
deriving DecidableEq

/-- `PerformanceMetrics.memory` from src/core/failure-classifier.ts. -/
structure MemoryMetrics where
  usedJSHeapSize : ℤ
  totalJSHeapSize : ℤ
deriving DecidableEq

/-- `PerformanceMetrics.timing` from src/core/failure-classifier.ts. -/
structure TimingMetrics where
  firstContentfulPaint : Option ℚ
  largestContentfulPaint : Option ℚ
deriving DecidableEq

/-- `PerformanceMetrics` from src/core/failure-classifier.ts. -/
structure PerformanceMetrics where
  navigation : Option NavigationTiming
  memory : Option MemoryMetrics
  timing : Option TimingMetrics
deriving DecidableEq

/-- `Evidence` from src/core/failure-classifier.ts. -/
structure Evidence where
  errorMessage : Option String
  networkFailures : Option (List NetworkFailure)
  consoleErrors : Option (List ConsoleError)
  performanceMetrics : Option PerformanceMetrics
  screenshot : Option String
  domSnapshot : Option String
  url : String
  timestamp : String
deriving DecidableEq

/-- `ClassificationType` from src/core/failure-classifier.ts. -/
inductive ClassificationType where
  | TestFlake
  | AppRegression
  | EnvironmentIssue
  | DataProblem
deriving DecidableEq

/-- `Classification` from src/core/failure-classifier.ts. -/
structure Classification where
  type : ClassificationType
  confidence : ℚ
  reasons : List String
  recommendation : List String
  fixable : Bool
deriving DecidableEq

/-- `FullClassification` from src/core/failure-classifier.ts: the winning
classification's fields spread together with all candidates. -/
structure FullClassification where
  type : ClassificationType
  confidence : ℚ
  reasons : List String
  recommendation : List String
  fixable : Bool
  allClassifications : List Classification
  analysisTimestamp : String

/-- JavaScript `list?.some(p)`: an `undefined` list is falsy. -/
def consoleSome (ev : Evidence) (p : ConsoleError → Bool) : Bool :=
  match ev.consoleErrors with
  | some l => l.any p
  | none => false

/-- JavaScript `list?.some(p)`: an `undefined` list is falsy. -/
def netSome (ev : Evidence) (p : NetworkFailure → Bool) : Bool :=
  match ev.networkFailures with
  | some l => l.any p
  | none => false

/-- One `confidence += inc; reasons.push(reason)` step, guarded by its
condition. -/
def accumStep (acc : ℚ × List String) (s : Bool × ℚ × String) : ℚ × List String :=
  if s.1 then (acc.1 + s.2.1, acc.2 ++ [s.2.2]) else acc

/-- Sequential accumulation of guarded `confidence`/`reasons` updates,
starting from `confidence = 0`, `reasons = []`. -/
def accumulate (steps : List (Bool × ℚ × String)) : ℚ × List String :=
  steps.foldl accumStep (0, [])

/-- The guarded scoring conditions of `classifyAsTestFlake`, in source
order. -/
def testFlakeSteps (ev : Evidence) : List (Bool × ℚ × String) :=
  [ (optIncludes ev.errorMessage "timeout", (0.6 : ℚ), "Contains timeout error"),
    (optIncludes ev.errorMessage "Element not found", (0.4 : ℚ),
      "Element not found - possibly race condition"),
    (netSome ev (fun f => optIncludes f.failure "timeout"), (0.3 : ℚ),
      "Network timeout detected"),
    (optIncludes ev.errorMessage "not visible" || optIncludes ev.errorMessage "not attached",
      (0.5 : ℚ), "Element visibility/attachment issue"),
    (consoleSome ev (fun e => strIncludes e.text "animation" || strIncludes e.text "transition"),
      (0.2 : ℚ), "Animation/transition interference detected") ]

/-- Accumulated raw confidence and reasons of `classifyAsTestFlake`. -/
def testFlakeAccum (ev : Evidence) : ℚ × List String :=
  accumulate (testFlakeSteps ev)

/-- `getFlakeRecommendation` from src/core/failure-classifier.ts. -/
def getFlakeRecommendation (reasons : List String) : List String :=
  let recommendations :=
    (if reasons.any (fun r => strIncludes r "timeout") then
      ["Increase timeout values for slow operations",
       "Add explicit waits for element visibility"] else []) ++
    (if reasons.any (fun r => strIncludes r "Element not found") then
      ["Use more reliable selectors (data-test attributes)",
       "Wait for element to be both visible and stable"] else []) ++
    (if reasons.any (fun r => strIncludes r "Network timeout") then
      ["Add network request retries",
       "Check API response time expectations"] else [])
  if 0 < recommendations.length then recommendations
  else ["Add explicit waits and improve selector stability"]

/-- `classifyAsTestFlake` from src/core/failure-classifier.ts. -/
def classifyAsTestFlake (ev : Evidence) : Classification :=
  let acc := testFlakeAccum ev
  { type := .TestFlake,
    confidence := min acc.1 (0.95 : ℚ),
    reasons := acc.2,
    recommendation := getFlakeRecommendation acc.2,
    fixable := true }

/-- The `appErrors` filter of `classifyAsAppRegression`: guarded by the
truthiness of `evidence.consoleErrors?.length > 0`. -/
def appErrorsOf (ev : Evidence) : List ConsoleError :=
  match ev.consoleErrors with
  | some errs =>
      if 0 < errs.length then
        errs.filter (fun e =>
          strIncludes e.text "TypeError" || strIncludes e.text "ReferenceError" ||
          strIncludes e.text "Cannot read property")
      else []
  | none => []

/-- `serverErrors` of `classifyAsAppRegression`
(`evidence.networkFailures?.filter(f => f.status >= 500) || []`). -/
def serverErrorsOf (ev : Evidence) : List NetworkFailure :=
  (ev.networkFailures.getD []).filter (fun f => decide (500 ≤ f.status))

/-- `clientErrors` of `classifyAsAppRegression`
(`f.status >= 400 && f.status < 500`). -/
def clientErrorsOf (ev : Evidence) : List NetworkFailure :=
  (ev.networkFailures.getD []).filter
    (fun f => decide (400 ≤ f.status) && decide (f.status < 500))

/-- The guarded scoring conditions of `classifyAsAppRegression`, in source
order. -/
def appRegressionSteps (ev : Evidence) : List (Bool × ℚ × String) :=
  let nApp := (appErrorsOf ev).length
  let nServer := (serverErrorsOf ev).length
  let nClient := (clientErrorsOf ev).length
  [ (decide (0 < nApp), (0.7 : ℚ), s!"{nApp} JavaScript errors detected"),
    (decide (0 < nServer), (0.8 : ℚ), s!"{nServer} server errors (5xx)"),
    (decide (0 < nClient), (0.6 : ℚ), s!"{nClient} client errors (4xx)"),
    (consoleSome ev (fun e =>
       strIncludes e.text "React" || strIncludes e.text "Vue" ||
       strIncludes e.text "component"),
      (0.5 : ℚ), "Frontend framework error detected") ]

/-- Accumulated raw (pre-clamp) confidence and reasons of
`classifyAsAppRegression`.  The raw value is what the `fixable` computation
reads. -/
def appRegressionAccum (ev : Evidence) : ℚ × List String :=
  accumulate (appRegressionSteps ev)

/-- `isObviousAppFix` from src/core/failure-classifier.ts.  The source's
`(a?.some(..) || b?.some(..)) ?? false` collapses to `false` whenever both
lists are `undefined` or no element matches. -/
def isObviousAppFix (ev : Evidence) : Bool :=
  consoleSome ev (fun e => strIncludes e.text "Cannot read property") ||
  netSome ev (fun f => decide (f.status = 404) && strIncludes f.url "/api/")

/-- `getAppRegressionRecommendation` from src/core/failure-classifier.ts. -/
def getAppRegressionRecommendation (ev : Evidence) : List String :=
  let recommendations :=
    (if consoleSome ev (fun e => strIncludes e.text "TypeError") then
      ["Check for undefined variables or null references",
       "Verify object properties exist before accessing"] else []) ++
    (if netSome ev (fun f => decide (500 ≤ f.status)) then
      ["Check server logs for backend errors",
       "Verify API endpoint functionality"] else []) ++
    (if netSome ev (fun f => decide (f.status = 404)) then
      ["Verify API route exists and is properly defined",
       "Check for route parameter formatting"] else [])
  if 0 < recommendations.length then recommendations
  else ["Review application logs and recent code changes"]

/-- `classifyAsAppRegression` from src/core/failure-classifier.ts.  Note
that `fixable` compares the raw accumulated confidence (before the 0.95
clamp) against 0.8. -/
def classifyAsAppRegression (ev : Evidence) : Classification :=
  let acc := appRegressionAccum ev
  { type := .AppRegression,
    confidence := min acc.1 (0.95 : ℚ),
    reasons := acc.2,
    recommendation := getAppRegressionRecommendation ev,
    fixable := decide ((0.8 : ℚ) < acc.1) && isObviousAppFix ev }

/-- Truthiness of `performanceMetrics?.memory?.usedJSHeapSize &&
usedJSHeapSize > 100000000` in `classifyAsEnvironmentIssue`. -/
def highMemory (ev : Evidence) : Bool :=
  match ev.performanceMetrics.bind PerformanceMetrics.memory with
  | some m => decide (m.usedJSHeapSize ≠ 0) && decide (100000000 < m.usedJSHeapSize)
  | none => false

/-- The guarded scoring conditions of `classifyAsEnvironmentIssue`, in
source order. -/
def environmentSteps (ev : Evidence) : List (Bool × ℚ × String) :=
  [ (netSome ev (fun f => optIncludes f.failure "ECONNREFUSED"), (0.9 : ℚ),
      "Connection refused - service may be down"),
    (netSome ev (fun f => optIncludes f.failure "net::ERR_CONNECTION_RESET"), (0.8 : ℚ),
      "Connection reset - network instability"),
    (netSome ev (fun f => optIncludes f.failure "ENOTFOUND"), (0.9 : ℚ),
      "DNS resolution failed"),
    (optIncludes ev.errorMessage "Session closed" ||
       optIncludes ev.errorMessage "browser has been closed", (0.8 : ℚ),
      "Browser session terminated unexpectedly"),
    (highMemory ev, (0.3 : ℚ), "High memory usage detected") ]

/-- Accumulated raw confidence and reasons of `classifyAsEnvironmentIssue`. -/
def environmentAccum (ev : Evidence) : ℚ × List String :=
  accumulate (environmentSteps ev)

/-- `getEnvironmentRecommendation` from src/core/failure-classifier.ts. -/
def getEnvironmentRecommendation (reasons : List String) : List String :=
  let recommendations :=
    (if reasons.any (fun r => strIncludes r "Connection refused") then
      ["Verify the application server is running",
       "Check if the correct port is being used"] else []) ++
    (if reasons.any (fun r => strIncludes r "DNS resolution") then
      ["Check network connectivity",
       "Verify hostname/URL configuration"] else []) ++
    (if reasons.any (fun r => strIncludes r "Browser session") then
      ["Check browser driver compatibility",
       "Verify sufficient system resources"] else [])
  if 0 < recommendations.length then recommendations
  else ["Check system resources and network connectivity"]

/-- `classifyAsEnvironmentIssue` from src/core/failure-classifier.ts. -/
def classifyAsEnvironmentIssue (ev : Evidence) : Classification :=
  let acc := environmentAccum ev
  { type := .EnvironmentIssue,
    confidence := min acc.1 (0.95 : ℚ),
    reasons := acc.2,
    recommendation := getEnvironmentRecommendation acc.2,
    fixable := false }

/-- The guarded scoring conditions of `classifyAsDataProblem`, in source
order. -/
def dataProblemSteps (ev : Evidence) : List (Bool × ℚ × String) :=
  [ (netSome ev (fun f => decide (f.status = 401)), (0.7 : ℚ),
      "Authentication failure detected"),
    (optIncludes ev.errorMessage "not found" &&
       netSome ev (fun f => decide (f.status = 404)), (0.6 : ℚ),
      "Test data not found (404)"),
    (netSome ev (fun f => decide (f.status = 503)), (0.5 : ℚ),
      "Service unavailable - possible database issue"),
    (netSome ev (fun f => decide (f.status = 422)), (0.4 : ℚ),
      "Validation error - data format issue") ]

/-- Accumulated raw confidence and reasons of `classifyAsDataProblem`. -/
def dataProblemAccum (ev : Evidence) : ℚ × List String :=
  accumulate (dataProblemSteps ev)

/-- `getDataRecommendation` from src/core/failure-classifier.ts. -/
def getDataRecommendation (reasons : List String) : List String :=
  let recommendations :=
    (if reasons.any (fun r => strIncludes r "Authentication failure") then
      ["Verify test credentials are correct",
       "Check if authentication tokens are expired"] else []) ++
    (if reasons.any (fun r => strIncludes r "not found") then
      ["Ensure test data is properly seeded",
       "Verify database is in correct state"] else [])
  if 0 < recommendations.length then recommendations
  else ["Check test data setup and database state"]

/-- `classifyAsDataProblem` from src/core/failure-classifier.ts. -/
def classifyAsDataProblem (ev : Evidence) : Classification :=
  let acc := dataProblemAccum ev
  { type := .DataProblem,
    confidence := min acc.1 (0.95 : ℚ),
    reasons := acc.2,
    recommendation := getDataRecommendation acc.2,
    fixable := false }

/-- The `reduce` in `classify`: keeps the current best, replacing it only on
a strictly larger confidence (so earlier candidates win ties). -/
def bestOf (l : List Classification) (best : Classification) : Classification :=
  match l with
  | [] => best
  | c :: t => bestOf t (if best.confidence < c.confidence then c else best)

/-- `classify` from src/core/failure-classifier.ts.  The wall-clock
`analysisTimestamp` is supplied by the caller. -/
def classify (ev : Evidence) (now : String) : FullClassification :=
  let flake := classifyAsTestFlake ev
  let regression := classifyAsAppRegression ev
  let environment := classifyAsEnvironmentIssue ev
  let dataProblem := classifyAsDataProblem ev
  let classifications := [flake, regression, environment, dataProblem]
  let bestMatch := bestOf [regression, environment, dataProblem] flake
  { type := bestMatch.type,
    confidence := bestMatch.confidence,
    reasons := bestMatch.reasons,
    recommendation := bestMatch.recommendation,
    fixable := bestMatch.fixable,
    allClassifications := classifications,
    analysisTimestamp := now }

lemma foldl_accumStep_nonneg (steps : List (Bool × ℚ × String)) :
    ∀ acc : ℚ × List String, 0 ≤ acc.1 → (∀ s ∈ steps, 0 ≤ s.2.1) →
      0 ≤ (steps.foldl accumStep acc).1 := by
  induction steps with
  | nil => intro acc h _; simpa using h
  | cons s t ih =>
      intro acc h hall
      simp only [List.foldl_cons]
      refine ih _ ?_ (fun x hx => hall x (List.mem_cons_of_mem s hx))
      unfold accumStep
      split
      · exact add_nonneg h (hall s (List.mem_cons_self s t))
      · exact h

lemma accumulate_fst_nonneg (steps : List (Bool × ℚ × String))
    (h : ∀ s ∈ steps, 0 ≤ s.2.1) : 0 ≤ (accumulate steps).1 :=
  foldl_accumStep_nonneg steps (0, []) le_rfl h

lemma conf_bounds (acc : ℚ) (h : 0 ≤ acc) :
    0 ≤ min acc (0.95 : ℚ) ∧ min acc (0.95 : ℚ) ≤ (0.95 : ℚ) :=
  ⟨le_min h (by norm_num), min_le_right _ _⟩

lemma classifyAsTestFlake_conf (ev : Evidence) :
    0 ≤ (classifyAsTestFlake ev).confidence ∧
    (classifyAsTestFlake ev).confidence ≤ (0.95 : ℚ) := by
  refine conf_bounds _ (accumulate_fst_nonneg _ ?_)
  intro s hs; fin_cases hs <;> norm_num

lemma classifyAsAppRegression_conf (ev : Evidence) :
    0 ≤ (classifyAsAppRegression ev).confidence ∧
    (classifyAsAppRegression ev).confidence ≤ (0.95 : ℚ) := by
  refine conf_bounds _ (accumulate_fst_nonneg _ ?_)
  intro s hs; fin_cases hs <;> norm_num

lemma classifyAsEnvironmentIssue_conf (ev : Evidence) :
    0 ≤ (classifyAsEnvironmentIssue ev).confidence ∧
    (classifyAsEnvironmentIssue ev).confidence ≤ (0.95 : ℚ) := by
  refine conf_bounds _ (accumulate_fst_nonneg _ ?_)
  intro s hs; fin_cases hs <;> norm_num

lemma classifyAsDataProblem_conf (ev : Evidence) :
    0 ≤ (classifyAsDataProblem ev).confidence ∧
    (classifyAsDataProblem ev).confidence ≤ (0.95 : ℚ) := by
  refine conf_bounds _ (accumulate_fst_nonneg _ ?_)
  intro s hs; fin_cases hs <;> norm_num

lemma bestOf_pred (P : Classification → Prop) :
    ∀ (l : List Classification) (b : Classification), P b → (∀ c ∈ l, P c) →
      P (bestOf l b) := by
  intro l
  induction l with
  | nil => intro b hb _; simpa [bestOf] using hb
  | cons c t ih =>
      intro b hb hall
      simp only [bestOf]
      refine ih _ ?_ (fun x hx => hall x (List.mem_cons_of_mem c hx))
      split
      · exact hall c (List.mem_cons_self c t)
      · exact hb

/-- C1: for every Evidence input, each of the four heuristic classifications
returned by classify has confidence in [0, 0.95], and the winning
classification's confidence is also in [0, 0.95], no matter how many scoring
conditions match. -/
theorem classify_confidence_within_bounds (ev : Evidence) (now : String) :
    (∀ c ∈ (classify ev now).allClassifications,
      0 ≤ c.confidence ∧ c.confidence ≤ (0.95 : ℚ)) ∧
    0 ≤ (classify ev now).confidence ∧ (classify ev now).confidence ≤ (0.95 : ℚ) := by
  have hf := classifyAsTestFlake_conf ev
  have hr := classifyAsAppRegression_conf ev
  have he := classifyAsEnvironmentIssue_conf ev
  have hd := classifyAsDataProblem_conf ev
  constructor
  · intro c hc
    simp only [classify, List.mem_cons, List.not_mem_nil, or_false] at hc
    rcases hc with rfl | rfl | rfl | rfl
    · exact hf
    · exact hr
    · exact he
    · exact hd
  · exact bestOf_pred (fun c => 0 ≤ c.confidence ∧ c.confidence ≤ (0.95 : ℚ))
      [classifyAsAppRegression ev, classifyAsEnvironmentIssue ev, classifyAsDataProblem ev]
      (classifyAsTestFlake ev) hf
      (by intro c hc; fin_cases hc
          · exact hr
          · exact he
          · exact hd)

/-- Evidence whose only populated signal is the capital-T Playwright-style
timeout message, as written in the claim. -/
def evidenceTimeoutUpper : Evidence :=
  { errorMessage := some "Timeout 30000ms exceeded waiting for selector",
    networkFailures := none, consoleErrors := none, performanceMetrics := none,
    screenshot := none, domSnapshot := none,
    url := "https://example.test/page", timestamp := "2026-01-01T00:00:00.000Z" }

/-- C2 counterexample: on the claim's exact input, the evidence whose only
populated signal is errorMessage = "Timeout 30000ms exceeded waiting for
selector", the winning classification has confidence 0 and an empty reasons
list (not confidence 0.6 with a timeout reason): the source's
includes("timeout") check is case-sensitive and the message has a capital
T. -/
theorem classify_capital_timeout_zero :
    (classify evidenceTimeoutUpper "").confidence = 0 ∧
    (classify evidenceTimeoutUpper "").reasons = [] := by
  constructor <;>
    simp +decide [classify, classifyAsTestFlake, classifyAsAppRegression,
      classifyAsEnvironmentIssue, classifyAsDataProblem,
      testFlakeAccum, testFlakeSteps, appRegressionAccum, appRegressionSteps,
      environmentAccum, environmentSteps, dataProblemAccum, dataProblemSteps,
      accumulate, accumStep, bestOf, appErrorsOf, serverErrorsOf, clientErrorsOf,
      consoleSome, netSome, highMemory, optIncludes, evidenceTimeoutUpper, min_def] <;>
    norm_num

/-- The same evidence with a lowercase timeout message, which the
case-sensitive `includes("timeout")` check does match. -/
def evidenceTimeoutLower : Evidence :=
  { evidenceTimeoutUpper with
    errorMessage := some "timeout 30000ms exceeded waiting for selector" }

/-- C2 amended: for evidence whose only populated signal is an error message
containing lowercase "timeout" (here "timeout 30000ms exceeded waiting for
selector"), classify returns a winning classification of type TestFlake with
confidence 0.6 and the reasons entry "Contains timeout error", which mentions
"timeout". -/
theorem classify_lowercase_timeout_testflake :
    (classify evidenceTimeoutLower "").type = ClassificationType.TestFlake ∧
    (classify evidenceTimeoutLower "").confidence = (0.6 : ℚ) ∧
    (classify evidenceTimeoutLower "").reasons = ["Contains timeout error"] ∧
    strIncludes "Contains timeout error" "timeout" = true := by
  refine ⟨?_, ?_, ?_, by decide⟩ <;>
    simp +decide [classify, classifyAsTestFlake, classifyAsAppRegression,
      classifyAsEnvironmentIssue, classifyAsDataProblem,
      testFlakeAccum, testFlakeSteps, appRegressionAccum, appRegressionSteps,
      environmentAccum, environmentSteps, dataProblemAccum, dataProblemSteps,
      accumulate, accumStep, bestOf, appErrorsOf, serverErrorsOf, clientErrorsOf,
      consoleSome, netSome, highMemory, optIncludes, evidenceTimeoutLower,
      evidenceTimeoutUpper, min_def] <;>
    norm_num

/-- Evidence whose only populated signal is a single 401 network failure. -/
def evidence401 : Evidence :=
  { errorMessage := none,
    networkFailures := some
      [{ url := "https://api.example.test/me", status := 401,
         statusText := "Unauthorized", failure := none }],
    consoleErrors := none, performanceMetrics := none,
    screenshot := none, domSnapshot := none,
    url := "https://example.test/page", timestamp := "2026-01-01T00:00:00.000Z" }

/-- C7: for an Evidence record whose only populated signal is a single
network failure with status 401, classify returns a winning classification of
type DataProblem with confidence 0.7, beating the AppRegression heuristic,
which scores the same evidence 0.6 via its 4xx rule (the four candidate
confidences are [0, 0.6, 0, 0.7]). -/
theorem classify_401_data_problem :
    (classify evidence401 "").type = ClassificationType.DataProblem ∧
    (classify evidence401 "").confidence = (0.7 : ℚ) ∧
    ((classify evidence401 "").allClassifications.map Classification.confidence) =
      [0, (0.6 : ℚ), 0, (0.7 : ℚ)] ∧
    (0.6 : ℚ) < (0.7 : ℚ) := by
  refine ⟨?_, ?_, ?_, by norm_num⟩ <;>
    simp +decide [classify, classifyAsTestFlake, classifyAsAppRegression,
      classifyAsEnvironmentIssue, classifyAsDataProblem,
      testFlakeAccum, testFlakeSteps, appRegressionAccum, appRegressionSteps,
      environmentAccum, environmentSteps, dataProblemAccum, dataProblemSteps,
      accumulate, accumStep, bestOf, appErrorsOf, serverErrorsOf, clientErrorsOf,
      consoleSome, netSome, highMemory, optIncludes, evidence401, min_def] <;>
    norm_num

/-- Evidence that drives the AppRegression heuristic's raw confidence above
0.8 while matching the obvious-app-fix pattern. -/
def evidenceFixableRegression : Evidence :=
  { errorMessage := none,
    networkFailures := some
      [{ url := "https://api.example.test/items", status := 500,
         statusText := "Internal Server Error", failure := none }],
    consoleErrors := some
      [{ type := "error",
         text := "TypeError: Cannot read property foo of undefined",
         location := none, timestamp := 1 }],
    performanceMetrics := none, screenshot := none, domSnapshot := none,
    url := "https://example.test/page", timestamp := "2026-01-01T00:00:00.000Z" }

/-- C8 counterexample: evidence with a "TypeError: Cannot read property"
console error and a 500 network failure makes the AppRegression heuristic's
raw confidence 1.5 > 0.8 and matches the obvious-app-fix pattern, so the
returned winning classification has type AppRegression and fixable = true,
refuting the claim that fixable is true only for TestFlake. -/
theorem appRegression_fixable_wins :
    (classify evidenceFixableRegression "").type = ClassificationType.AppRegression ∧
    (classify evidenceFixableRegression "").fixable = true := by
  have hobv : strIncludes "TypeError: Cannot read property foo of undefined"
      "Cannot read property" = true := by decide
  constructor <;>
    simp +decide [classify, classifyAsTestFlake, classifyAsAppRegression,
      classifyAsEnvironmentIssue, classifyAsDataProblem,
      testFlakeAccum, testFlakeSteps, appRegressionAccum, appRegressionSteps,
      environmentAccum, environmentSteps, dataProblemAccum, dataProblemSteps,
      accumulate, accumStep, bestOf, appErrorsOf, serverErrorsOf, clientErrorsOf,
      consoleSome, netSome, highMemory, optIncludes, isObviousAppFix,
      evidenceFixableRegression, min_def, hobv] <;>
    norm_num

/-- The fixable field as the source computes it, per classification type. -/
def fixableRule (ev : Evidence) (c : Classification) : Bool :=
  match c.type with
  | .TestFlake => true
  | .AppRegression => decide ((0.8 : ℚ) < (appRegressionAccum ev).1) && isObviousAppFix ev
  | .EnvironmentIssue => false
  | .DataProblem => false

/-- C8 amended: for every Evidence input, fixable is true for every
TestFlake classification, false for every EnvironmentIssue and DataProblem
classification, and for AppRegression it is true exactly when the heuristic's
raw (pre-clamp) confidence exceeds 0.8 and the evidence contains an
obvious-app-fix pattern (a "Cannot read property" console error, or a 404 on
a URL containing "/api/"); this holds for all four candidates and for the
winning classification. -/
theorem classify_fixable_policy (ev : Evidence) (now : String) :
    (∀ c ∈ (classify ev now).allClassifications, c.fixable = fixableRule ev c) ∧
    (classify ev now).fixable =
      fixableRule ev { type := (classify ev now).type,
                       confidence := (classify ev now).confidence,
                       reasons := (classify ev now).reasons,
                       recommendation := (classify ev now).recommendation,
                       fixable := (classify ev now).fixable } := by
  constructor
  · intro c hc
    simp only [classify, List.mem_cons, List.not_mem_nil, or_false] at hc
    rcases hc with rfl | rfl | rfl | rfl <;> rfl
  · have h := bestOf_pred (fun c => c.fixable = fixableRule ev c)
      [classifyAsAppRegression ev, classifyAsEnvironmentIssue ev, classifyAsDataProblem ev]
      (classifyAsTestFlake ev) rfl
      (by intro c hc; fin_cases hc <;> rfl)
    exact h

/-- Evidence with every optional signal absent. -/
def emptyEvidence : Evidence :=
  { errorMessage := none, networkFailures := none, consoleErrors := none,
    performanceMetrics := none, screenshot := none, domSnapshot := none,
    url := "https://example.test/page", timestamp := "2026-01-01T00:00:00.000Z" }

/-- C1 witness: the bounds instantiated at a concrete evidence value and a
concrete member of allClassifications. -/
theorem classify_confidence_within_bounds_witness :
    0 ≤ (classifyAsTestFlake emptyEvidence).confidence ∧
    (classifyAsTestFlake emptyEvidence).confidence ≤ (0.95 : ℚ) :=
  (classify_confidence_within_bounds emptyEvidence "").1
    (classifyAsTestFlake emptyEvidence) (by simp [classify])

/-- C8 witness: the fixable rule instantiated at a concrete evidence value
and a concrete member of allClassifications. -/
theorem classify_fixable_policy_witness :
    (classifyAsTestFlake emptyEvidence).fixable =
      fixableRule emptyEvidence (classifyAsTestFlake emptyEvidence) :=
  (classify_fixable_policy emptyEvidence "").1
    (classifyAsTestFlake emptyEvidence) (by simp [classify])

end Classifier

namespace Guard

/-- JavaScript truthiness of a number (`0` is falsy). -/
def truthyInt (n : ℤ) : Bool := decide (n ≠ 0)

/-- JavaScript `v || d` for an optional numeric parameter: `undefined` and
`0` both fall back to the default. -/
def jsOrNat (v : Option ℕ) (d : ℕ) : ℕ :=
  match v with
  | none => d
  | some x => if x = 0 then d else x

/-- `ResourceLimits` from src/core/page-health.ts. -/
structure ResourceLimits where
  maxRunTime : ℤ
  maxMemoryMB : ℤ
  maxRetries : ℕ
  maxHealingAttempts : ℕ
  maxConcurrentTests : ℕ
  testTimeout : ℕ
  pageTimeout : ℕ
  elementTimeout : ℕ
  networkTimeout : ℕ
  screenshotTimeout : ℕ
deriving DecidableEq

/-- The `defaultLimits` built in the `ResourceGuard` constructor (before any
`customLimits` override). -/
def defaultLimits (suiteType : String) : ResourceLimits :=
  { maxRunTime := if suiteType = "full" then 30 * 60 * 1000 else 10 * 60 * 1000,
    maxMemoryMB := 512,
    maxRetries := 3,
    maxHealingAttempts := 2,
    maxConcurrentTests := 1,
    testTimeout := 60000,
    pageTimeout := 30000,
    elementTimeout := 15000,
    networkTimeout := 30000,
    screenshotTimeout := 5000 }

/-- `ResourceStats` from src/core/page-health.ts (times in epoch ms, memory
in bytes). -/
structure ResourceStats where
  startTime : ℤ
  startMemory : ℕ
  testsRun : ℕ
  retriesUsed : ℕ
  healingAttempts : ℕ
  resourceWarnings : ℕ
deriving DecidableEq

/-- The circuit-breaker `state` field. -/
inductive BreakerState where
  | CLOSED
  | OPEN
  | HALF_OPEN
deriving DecidableEq

/-- `CircuitBreakerState` from src/core/page-health.ts. -/
structure CircuitBreakerState where
  failures : ℕ
  threshold : ℕ
  timeout : ℤ
  state : BreakerState
  lastFailure : Option ℤ
deriving DecidableEq

/-- The circuit breaker as initialised in the `ResourceGuard` constructor. -/
def initialCircuitBreaker : CircuitBreakerState :=
  { failures := 0, threshold := 5, timeout := 60000, state := .CLOSED,
    lastFailure := none }

/-- `canProceed` from src/core/page-health.ts. -/
def canProceed (b : CircuitBreakerState) : Bool :=
  if b.state = .OPEN then false else true

/-- `recordCircuitBreakerFailure` from src/core/page-health.ts (`now` is
`Date.now()` at the call). -/
def recordCircuitBreakerFailure (b : CircuitBreakerState) (now : ℤ) :
    CircuitBreakerState :=
  let b' := { b with failures := b.failures + 1 }
  if b'.threshold ≤ b'.failures then
    { b' with state := .OPEN, lastFailure := some now }
  else b'

/-- `recordCircuitBreakerSuccess` from src/core/page-health.ts. -/
def recordCircuitBreakerSuccess (b : CircuitBreakerState) : CircuitBreakerState :=
  let b' := { b with failures := 0 }
  if b'.state = .HALF_OPEN then { b' with state := .CLOSED } else b'

/-- The circuit-breaker clause at the end of `checkResourceLimits`:
`cooldownExpired = lastFailure && Date.now() - lastFailure > timeout`
(truthiness of `lastFailure` made explicit). -/
def checkBreakerCooldown (b : CircuitBreakerState) (now : ℤ) : CircuitBreakerState :=
  if b.state = .OPEN then
    let cooldownExpired :=
      match b.lastFailure with
      | none => false
      | some lf => truthyInt lf && decide (b.timeout < now - lf)
    if cooldownExpired then { b with state := .HALF_OPEN } else b
  else b

/-- Outcome of one periodic `checkResourceLimits` tick: the updated mutable
state, whether `handleResourceLimit` (process-fatal emergency shutdown) fired
and with which reason, and whether the best-effort garbage-collection point
was reached. -/
structure MonitorResult where
  stats : ResourceStats
  breaker : CircuitBreakerState
  shutdown : Option String
  gcRequested : Bool
deriving DecidableEq

/-- `checkResourceLimits` from src/core/page-health.ts.  `now` is
`Date.now()`; `heapUsed` is `process.memoryUsage().heapUsed` in bytes.  On a
runtime or memory breach the method returns immediately after invoking
`handleResourceLimit`; otherwise it falls through to the circuit-breaker
cooldown check. -/
def checkResourceLimits (limits : ResourceLimits) (stats : ResourceStats)
    (breaker : CircuitBreakerState) (now : ℤ) (heapUsed : ℕ) : MonitorResult :=
  let runtime := now - stats.startTime
  let memoryMB : ℚ := (heapUsed : ℚ) / 1024 / 1024
  if limits.maxRunTime < runtime then
    { stats := stats, breaker := breaker, shutdown := some "MAX_RUNTIME",
      gcRequested := false }
  else if (limits.maxMemoryMB : ℚ) < memoryMB then
    let stats' := { stats with resourceWarnings := stats.resourceWarnings + 1 }
    if 3 < stats'.resourceWarnings then
      { stats := stats', breaker := breaker, shutdown := some "MAX_MEMORY",
        gcRequested := false }
    else
      { stats := stats', breaker := checkBreakerCooldown breaker now,
        shutdown := none, gcRequested := true }
  else
    { stats := stats, breaker := checkBreakerCooldown breaker now,
      shutdown := none, gcRequested := false }

/-- `min(1000 * Math.pow(2, attempt - 1), 10000)`: the backoff slept after a
failed attempt. -/
def backoffMs (attempt : ℕ) : ℕ := min (1000 * 2 ^ (attempt - 1)) 10000

/-- Observable outcome of one `withRetry` call: the settled result (`error
none` models the unreachable `throw lastError!` with no recorded error), how
often the operation ran, the backoff sleeps in order, how many
circuit-breaker failures were recorded, and the increments to the shared
`retriesUsed` counter. -/
structure RetryResult (ε α : Type) where
  outcome : Except (Option ε) α
  invocations : ℕ
  sleeps : List ℕ
  breakerFailures : ℕ
  retriesUsed : ℕ

/-- The `for (attempt = 1; attempt <= retries; attempt++)` loop of
`withRetry`, with the operation's behaviour on each attempt given by `op`.
The fuel argument exceeds the remaining iterations, so the `fuel = 0` case
is unreachable from `withRetry`. -/
def retryLoop (op : ℕ → Except ε α) (retries : ℕ) :
    ℕ → ℕ → ℕ → List ℕ → ℕ → Option ε → RetryResult ε α
  | 0, _, invs, sleeps, used, lastErr =>
      { outcome := .error lastErr, invocations := invs, sleeps := sleeps,
        breakerFailures := 0, retriesUsed := used }
  | fuel + 1, attempt, invs, sleeps, used, lastErr =>
      if retries < attempt then
        { outcome := .error lastErr, invocations := invs, sleeps := sleeps,
          breakerFailures := 0, retriesUsed := used }
      else
        match op attempt with
        | .ok v =>
            { outcome := .ok v, invocations := invs + 1, sleeps := sleeps,
              breakerFailures := 0, retriesUsed := used }
        | .error e =>
            if attempt = retries then
              { outcome := .error (some e), invocations := invs + 1,
                sleeps := sleeps, breakerFailures := 1, retriesUsed := used + 1 }
            else
              retryLoop op retries fuel (attempt + 1) (invs + 1)
                (sleeps ++ [backoffMs attempt]) (used + 1) (some e)

/-- `withRetry` from src/core/page-health.ts:
`retries = maxRetries || this.limits.maxRetries`, then the attempt loop. -/
def withRetry (limits : ResourceLimits) (op : ℕ → Except ε α)
    (maxRetries : Option ℕ) : RetryResult ε α :=
  let retries := jsOrNat maxRetries limits.maxRetries
  retryLoop op retries (retries + 1) 1 0 [] 0 none

/-- The timeout chosen by `withTimeout`:
`timeoutMs || this.limits.testTimeout`. -/
def withTimeoutDuration (limits : ResourceLimits) (timeoutMs : Option ℕ) : ℕ :=
  jsOrNat timeoutMs limits.testTimeout

/-- C4: withRetry with maxRetries = 3 and an operation that throws on every
invocation runs the operation exactly 3 times, sleeps exactly twice with
backoffMs 1 = 1000 ms and backoffMs 2 = 2000 ms (monotonically
non-decreasing), records exactly one circuit-breaker failure, and re-throws
the error of the final attempt. -/
theorem withRetry_always_failing (ε α : Type) (err : ℕ → ε) :
    (withRetry (defaultLimits "smoke")
        (fun n => (Except.error (err n) : Except ε α)) (some 3)).invocations = 3 ∧
    (withRetry (defaultLimits "smoke")
        (fun n => (Except.error (err n) : Except ε α)) (some 3)).sleeps =
      [backoffMs 1, backoffMs 2] ∧
    [backoffMs 1, backoffMs 2] = [1000, 2000] ∧
    (withRetry (defaultLimits "smoke")
        (fun n => (Except.error (err n) : Except ε α)) (some 3)).outcome =
      Except.error (some (err 3)) ∧
    (withRetry (defaultLimits "smoke")
        (fun n => (Except.error (err n) : Except ε α)) (some 3)).breakerFailures = 1 ∧
    List.Chain' (fun a b => a ≤ b)
      (withRetry (defaultLimits "smoke")
        (fun n => (Except.error (err n) : Except ε α)) (some 3)).sleeps := by
  refine ⟨rfl, rfl, by decide, rfl, rfl, ?_⟩
  show List.Chain' (fun a b => a ≤ b) [backoffMs 1, backoffMs 2]
  exact List.chain'_pair.mpr (by decide)

/-- C3: starting from a fresh breaker (CLOSED, failures 0, threshold 5),
after exactly 5 recorded failures with no intervening success the state is
OPEN (after 4 it is still CLOSED) and canProceed is false; once more than the
60000 ms cooldown has elapsed since the stamped lastFailure, the next
periodic checkResourceLimits tick (with runtime and memory within limits)
moves the state to HALF_OPEN; a single subsequent recorded success moves it
to CLOSED and resets the failure counter to 0. -/
theorem circuitBreaker_lifecycle (t1 t2 t3 t4 t5 now' : ℤ) (stats : ResourceStats)
    (heapUsed : ℕ) (h5 : t5 ≠ 0) (hcool : 60000 < now' - t5)
    (hrun : now' - stats.startTime ≤ (defaultLimits "smoke").maxRunTime)
    (hmem : (heapUsed : ℚ) / 1024 / 1024 ≤ ((defaultLimits "smoke").maxMemoryMB : ℚ)) :
    let b4 := recordCircuitBreakerFailure (recordCircuitBreakerFailure
      (recordCircuitBreakerFailure (recordCircuitBreakerFailure
        initialCircuitBreaker t1) t2) t3) t4
    let b5 := recordCircuitBreakerFailure b4 t5
    let m := checkResourceLimits (defaultLimits "smoke") stats b5 now' heapUsed
    b4.state = BreakerState.CLOSED ∧ canProceed b4 = true ∧
    b5.state = BreakerState.OPEN ∧ canProceed b5 = false ∧
    b5.lastFailure = some t5 ∧
    m.shutdown = none ∧ m.breaker.state = BreakerState.HALF_OPEN ∧
    (recordCircuitBreakerSuccess m.breaker).state = BreakerState.CLOSED ∧
    (recordCircuitBreakerSuccess m.breaker).failures = 0 := by
  intro b4 b5 m
  have hb4 : b4 =
      { failures := 4, threshold := 5, timeout := 60000,
        state := .CLOSED, lastFailure := none } := by
    simp [b4, recordCircuitBreakerFailure, initialCircuitBreaker]
  have hb5 : b5 =
      { failures := 5, threshold := 5, timeout := 60000,
        state := .OPEN, lastFailure := some t5 } := by
    simp [b5, hb4, recordCircuitBreakerFailure]
  have hm : m.shutdown = none ∧ m.breaker =
      { failures := 5, threshold := 5, timeout := 60000,
        state := .HALF_OPEN, lastFailure := some t5 } := by
    have hrun' : ¬ ((defaultLimits "smoke").maxRunTime < now' - stats.startTime) :=
      not_lt.mpr hrun
    have hmem' : ¬ (((defaultLimits "smoke").maxMemoryMB : ℚ) <
        (heapUsed : ℚ) / 1024 / 1024) := not_lt.mpr hmem
    simp [m, checkResourceLimits, hrun', hmem', hb5, checkBreakerCooldown,
      truthyInt, h5, hcool]
  refine ⟨by simp [hb4], by simp [canProceed, hb4], by simp [hb5],
    by simp [canProceed, hb5], by simp [hb5], hm.1, by simp [hm.2], ?_, ?_⟩ <;>
    simp [recordCircuitBreakerSuccess, hm.2]

/-- C3 witness: the lifecycle instantiated with failures recorded at t=1000
and a monitor tick at t=70000. -/
theorem circuitBreaker_lifecycle_witness :
    let b4 := recordCircuitBreakerFailure (recordCircuitBreakerFailure
      (recordCircuitBreakerFailure (recordCircuitBreakerFailure
        initialCircuitBreaker 1000) 1000) 1000) 1000
    let b5 := recordCircuitBreakerFailure b4 1000
    let m := checkResourceLimits (defaultLimits "smoke")
      { startTime := 0, startMemory := 0, testsRun := 0, retriesUsed := 0,
        healingAttempts := 0, resourceWarnings := 0 } b5 70000 0
    b4.state = BreakerState.CLOSED ∧ canProceed b4 = true ∧
    b5.state = BreakerState.OPEN ∧ canProceed b5 = false ∧
    b5.lastFailure = some 1000 ∧
    m.shutdown = none ∧ m.breaker.state = BreakerState.HALF_OPEN ∧
    (recordCircuitBreakerSuccess m.breaker).state = BreakerState.CLOSED ∧
    (recordCircuitBreakerSuccess m.breaker).failures = 0 :=
  circuitBreaker_lifecycle 1000 1000 1000 1000 1000 70000
    { startTime := 0, startMemory := 0, testsRun := 0, retriesUsed := 0,
      healingAttempts := 0, resourceWarnings := 0 } 0
    (by decide) (by decide) (by decide) (by norm_num [defaultLimits])

/-- Fresh stats at guard construction (counters zero). -/
def freshStats : ResourceStats :=
  { startTime := 0, startMemory := 0, testsRun := 0, retriesUsed := 0,
    healingAttempts := 0, resourceWarnings := 0 }

/-- A heap measurement of 600 MB, above the default 512 MB ceiling. -/
def heap600MB : ℕ := 600 * 1024 * 1024

/-- C5 counterexample: starting from fresh stats, three consecutive monitor
ticks that each measure 600 MB of heap (above the 512 MB default ceiling)
each increment the warning counter but none triggers emergency shutdown: the
counter reaches only 3, and the source shuts down only when it exceeds 3. -/
theorem three_memory_warnings_no_shutdown :
    (checkResourceLimits (defaultLimits "smoke") freshStats
        initialCircuitBreaker 0 heap600MB).shutdown = none ∧
    (checkResourceLimits (defaultLimits "smoke")
        (checkResourceLimits (defaultLimits "smoke") freshStats
          initialCircuitBreaker 0 heap600MB).stats
        initialCircuitBreaker 0 heap600MB).shutdown = none ∧
    (checkResourceLimits (defaultLimits "smoke")
        (checkResourceLimits (defaultLimits "smoke")
          (checkResourceLimits (defaultLimits "smoke") freshStats
            initialCircuitBreaker 0 heap600MB).stats
          initialCircuitBreaker 0 heap600MB).stats
        initialCircuitBreaker 0 heap600MB).shutdown = none ∧
    (checkResourceLimits (defaultLimits "smoke")
        (checkResourceLimits (defaultLimits "smoke")
          (checkResourceLimits (defaultLimits "smoke") freshStats
            initialCircuitBreaker 0 heap600MB).stats
          initialCircuitBreaker 0 heap600MB).stats
        initialCircuitBreaker 0 heap600MB).stats.resourceWarnings = 3 := by
  have hmem : ((defaultLimits "smoke").maxMemoryMB : ℚ) <
      (heap600MB : ℚ) / 1024 / 1024 := by norm_num [defaultLimits, heap600MB]
  have hrun : ¬ ((defaultLimits "smoke").maxRunTime < (0:ℤ) - (0:ℤ)) := by
    decide
  refine ⟨?_, ?_, ?_, ?_⟩ <;>
    simp [checkResourceLimits, freshStats, hmem, hrun, checkBreakerCooldown,
      initialCircuitBreaker, defaultLimits, heap600MB] <;>
    norm_num

/-- C5 amended: on a monitor tick within the runtime limit but with measured
heap memory above maxMemoryMB, the resource-warning counter is incremented,
emergency shutdown (reason MAX_MEMORY) triggers exactly when the incremented
counter exceeds 3 - that is, on the 4th warning, the counter being cumulative
and never reset - and otherwise no shutdown occurs and the best-effort
garbage-collection point is reached. -/
theorem memory_warning_shutdown_rule (limits : ResourceLimits)
    (stats : ResourceStats) (breaker : CircuitBreakerState) (now : ℤ)
    (heapUsed : ℕ)
    (hrun : now - stats.startTime ≤ limits.maxRunTime)
    (hmem : (limits.maxMemoryMB : ℚ) < (heapUsed : ℚ) / 1024 / 1024) :
    let m := checkResourceLimits limits stats breaker now heapUsed
    m.stats.resourceWarnings = stats.resourceWarnings + 1 ∧
    (m.shutdown = some "MAX_MEMORY" ↔ 3 < stats.resourceWarnings + 1) ∧
    (stats.resourceWarnings + 1 ≤ 3 → m.shutdown = none ∧ m.gcRequested = true) := by
  intro m
  have hrun' : ¬ (limits.maxRunTime < now - stats.startTime) := not_lt.mpr hrun
  by_cases hw : 3 < stats.resourceWarnings + 1
  · refine ⟨?_, ?_, ?_⟩ <;>
      simp [m, checkResourceLimits, hrun', hmem, hw] <;> omega
  · refine ⟨?_, ?_, ?_⟩ <;>
      simp [m, checkResourceLimits, hrun', hmem, hw] <;> omega

/-- C5 witness: the warning rule instantiated at a counter already at 3, so
the tick shuts down. -/
theorem memory_warning_shutdown_rule_witness :
    let m := checkResourceLimits (defaultLimits "smoke")
      { freshStats with resourceWarnings := 3 } initialCircuitBreaker 0 heap600MB
    m.stats.resourceWarnings = 3 + 1 ∧
    (m.shutdown = some "MAX_MEMORY" ↔ 3 < 3 + 1) ∧
    (3 + 1 ≤ 3 → m.shutdown = none ∧ m.gcRequested = true) :=
  memory_warning_shutdown_rule (defaultLimits "smoke")
    { freshStats with resourceWarnings := 3 } initialCircuitBreaker 0 heap600MB
    (by decide)
    (by norm_num [defaultLimits, heap600MB])

/-- C10: passing 0 as the explicit override is the same as omitting the
argument: withRetry with maxRetries = 0 behaves identically to withRetry with
the argument omitted (so with default limits an always-failing operation is
attempted 3 times, not zero), and withTimeout with timeoutMs = 0 uses
limits.testTimeout, because the override is taken only when it is a truthy
(non-zero) number. -/
theorem zero_override_uses_defaults (ε α : Type) (limits : ResourceLimits)
    (op : ℕ → Except ε α) (err : ℕ → ε) :
    withRetry limits op (some 0) = withRetry limits op none ∧
    withTimeoutDuration limits (some 0) = limits.testTimeout ∧
    withTimeoutDuration limits (some 0) = withTimeoutDuration limits none ∧
    (withRetry (defaultLimits "smoke")
        (fun n => (Except.error (err n) : Except ε α)) (some 0)).invocations = 3 := by
  exact ⟨rfl, rfl, rfl, rfl⟩

end Guard

namespace PageHealth

/-- An entry of the scorer's internal `consoleErrors` log
(src/core/page-health.ts, `PageHealthScorer`). -/
structure LoggedConsoleError where
  type : String
  text : String
  timestamp : ℤ
deriving DecidableEq

/-- An entry of the scorer's internal `networkFailures` log. -/
structure LoggedNetworkFailure where
  url : String
  status : Option ℤ
  failure : Option String
  timestamp : ℤ
deriving DecidableEq

/-- `AccessibilityIssue.severity` from src/core/page-health.ts. -/
inductive Severity where
  | low
  | medium
  | high
deriving DecidableEq

/-- `AccessibilityIssue` from src/core/page-health.ts. -/
structure AccessibilityIssue where
  type : String
  count : ℕ
  elements : Option (List String)
  severity : Severity
deriving DecidableEq

/-- `PerformanceMetrics.memory` from src/core/page-health.ts. -/
structure PageMemoryUsage where
  usedJSHeapSize : ℤ
  totalJSHeapSize : ℤ
  jsHeapSizeLimit : ℤ
deriving DecidableEq

/-- `PerformanceMetrics` from src/core/page-health.ts, as produced by
`capturePerformanceMetrics` in the page (or `null` when the page evaluation
throws). -/
structure PagePerformanceMetrics where
  domContentLoaded : Option ℚ
  loadComplete : Option ℚ
  firstPaint : Option ℚ
  firstContentfulPaint : Option ℚ
  memory : Option PageMemoryUsage
  resourceCount : ℕ
  timestamp : ℤ
deriving DecidableEq

/-- `PageHealthMetrics` from src/core/page-health.ts. -/
structure PageHealthMetrics where
  consoleErrors : ℕ
  networkFailures : ℕ
  firstContentfulPaint : Option ℚ
  accessibilityIssues : ℕ
  performanceScore : ℤ
  errorScore : ℤ
  accessibilityScore : ℤ
deriving DecidableEq

/-- `PageHealthReport` from src/core/page-health.ts.  All deductions are
integral, so `Math.round` is the identity and `score` is modelled in `ℤ`. -/
structure PageHealthReport where
  score : ℤ
  issues : List String
  recommendations : List String
  metrics : PageHealthMetrics
  url : String
  timestamp : String
deriving DecidableEq

/-- Truthiness of
`performanceMetrics?.firstContentfulPaint && firstContentfulPaint > 3000`
(an absent or zero value is falsy). -/
def fcpExceeds (pm : Option PagePerformanceMetrics) : Bool :=
  match pm with
  | none => false
  | some p =>
      match p.firstContentfulPaint with
      | none => false
      | some v => decide (v ≠ 0) && decide (3000 < v)

/-- One step of the accessibility-penalty `reduce` of `assessPageHealth`:
10 points per high-severity occurrence, 5 per medium, 2 per low. -/
def a11yStep (pen : ℤ) (i : AccessibilityIssue) : ℤ :=
  match i.severity with
  | .high => pen + (i.count : ℤ) * 10
  | .medium => pen + (i.count : ℤ) * 5
  | .low => pen + (i.count : ℤ) * 2

/-- The accessibility-penalty `reduce` of `assessPageHealth`. -/
def a11yPenalty (issues : List AccessibilityIssue) : ℤ :=
  issues.foldl a11yStep 0

lemma a11yStep_le (pen : ℤ) (i : AccessibilityIssue) : pen ≤ a11yStep pen i := by
  unfold a11yStep
  cases i.severity <;> simp <;> positivity

lemma foldl_a11yStep_le (l : List AccessibilityIssue) :
    ∀ acc : ℤ, acc ≤ l.foldl a11yStep acc := by
  induction l with
  | nil => intro acc; exact le_rfl
  | cons i t ih =>
      intro acc
      exact le_trans (a11yStep_le acc i) (ih (a11yStep acc i))

lemma a11yPenalty_nonneg (l : List AccessibilityIssue) : 0 ≤ a11yPenalty l :=
  foldl_a11yStep_le l 0

/-- JavaScript `s.replace("-", " ")`: only the first occurrence is
replaced. -/
def replaceFirstChar (c r : Char) : List Char → List Char
  | [] => []
  | a :: t => if a = c then r :: t else a :: replaceFirstChar c r t

/-- `issue.type.replace("-", " ")` in the issue text of `assessPageHealth`. -/
def dashToSpace (s : String) : String :=
  (replaceFirstChar (Char.ofNat 45) (Char.ofNat 32) s.toList).asString

/-- `assessPageHealth` from src/core/page-health.ts.  The page-side reads
are supplied as arguments: the accumulated console/network logs, the
current `Date.now()`, the captured performance metrics (or `null`), and the
accessibility issues found in the page. -/
def assessPageHealth (consoleErrors : List LoggedConsoleError)
    (networkFailures : List LoggedNetworkFailure) (now : ℤ)
    (pm : Option PagePerformanceMetrics) (a11y : List AccessibilityIssue)
    (url ts : String) : PageHealthReport :=
  let recentErrors := consoleErrors.filter (fun e => decide (now - e.timestamp < 5000))
  let recentFailures := networkFailures.filter (fun f => decide (now - f.timestamp < 5000))
  let nErr := recentErrors.length
  let nFail := recentFailures.length
  let errPenalty : ℤ := (nErr : ℤ) * 10
  let errorScore : ℤ := if 0 < nErr then max 0 (100 - errPenalty) else 100
  let score1 : ℤ := if 0 < nErr then 100 - errPenalty else 100
  let issues1 := if 0 < nErr then [s!"{nErr} console errors detected"] else []
  let recs1 := if 0 < nErr then ["Check console for JavaScript errors and warnings"] else []
  let failPenalty : ℤ := (nFail : ℤ) * 15
  let score2 := if 0 < nFail then score1 - failPenalty else score1
  let issues2 := issues1 ++ (if 0 < nFail then [s!"{nFail} network failures detected"] else [])
  let recs2 := recs1 ++ (if 0 < nFail then ["Review failed network requests and API endpoints"] else [])
  let slow := fcpExceeds pm
  let performanceScore : ℤ := if slow then 100 - 20 else 100
  let score3 := if slow then score2 - 20 else score2
  let issues3 := issues2 ++ (if slow then ["Slow first contentful paint (>3s)"] else [])
  let recs3 := recs2 ++ (if slow then ["Optimize page loading performance and resource sizes"] else [])
  let totalPenalty := a11yPenalty a11y
  let accessibilityScore : ℤ := if 0 < a11y.length then max 0 (100 - totalPenalty) else 100
  let score4 := if 0 < a11y.length then score3 - totalPenalty else score3
  let issues4 := issues3 ++
    (if 0 < a11y.length then
      a11y.map (fun i =>
        let cnt := i.count
        let typ := dashToSpace i.type
        s!"{cnt} {typ} issues")
     else [])
  let recs4 := recs3 ++
    (if 0 < a11y.length then ["Improve accessibility by adding missing labels and alt text"] else [])
  let finalScore := max 0 score4
  { score := finalScore,
    issues := issues4,
    recommendations := recs4,
    metrics :=
      { consoleErrors := nErr,
        networkFailures := nFail,
        firstContentfulPaint := pm.bind PagePerformanceMetrics.firstContentfulPaint,
        accessibilityIssues := a11y.foldl (fun t i => t + i.count) 0,
        performanceScore := performanceScore,
        errorScore := errorScore,
        accessibilityScore := accessibilityScore },
    url := url,
    timestamp := ts }

/-- Performance metrics of a fast page: first contentful paint well below
the 3000 ms threshold. -/
def fastPagePerf : PagePerformanceMetrics :=
  { domContentLoaded := some 40, loadComplete := some 120, firstPaint := some 900,
    firstContentfulPaint := some 1200, memory := none, resourceCount := 10,
    timestamp := 0 }

/-- C9: the score returned by assessPageHealth equals 100 minus 10 per
recent console error, minus 15 per recent network failure, minus 20 when
first contentful paint exceeds 3000 ms, minus the weighted accessibility
penalty (10 per high-severity, 5 per medium, 2 per low occurrence), clamped
below at 0 (and never above 100 since all deductions are nonnegative); in
particular a page with no recent errors or failures, a fast first contentful
paint and no accessibility issues scores exactly 100. -/
theorem assessPageHealth_score_formula
    (cl : List LoggedConsoleError) (nl : List LoggedNetworkFailure) (now : ℤ)
    (pm : Option PagePerformanceMetrics) (a11y : List AccessibilityIssue)
    (url ts : String) :
    (assessPageHealth cl nl now pm a11y url ts).score =
      max 0 (100
        - 10 * ((cl.filter (fun e => decide (now - e.timestamp < 5000))).length : ℤ)
        - 15 * ((nl.filter (fun f => decide (now - f.timestamp < 5000))).length : ℤ)
        - (if fcpExceeds pm then 20 else 0)
        - a11yPenalty a11y) ∧
    (assessPageHealth [] [] 0 (some fastPagePerf) [] url ts).score = 100 := by
  constructor
  · by_cases ha : 0 < a11y.length
    · have h1 : 0 ≤ a11yPenalty a11y := a11yPenalty_nonneg a11y
      simp only [assessPageHealth]
      split_ifs <;> omega
    · have hz : a11yPenalty a11y = 0 := by
        have he : a11y = [] := List.length_eq_zero.mp (by omega)
        simp [he, a11yPenalty]
      simp only [assessPageHealth]
      split_ifs <;> omega
  · norm_num [assessPageHealth, fcpExceeds, fastPagePerf, a11yPenalty]

end PageHealth

namespace Collector

/-- JavaScript `v || d` for an optional string (`undefined` and `""` are
falsy). -/
def jsOrStr (v : Option String) (d : String) : String :=
  match v with
  | none => d
  | some s => if s = "" then d else s

/-- JavaScript `a || b` over two optional strings, as in
`error.text || error.message` (the result may itself be `undefined`). -/
def jsOrOptStr (a b : Option String) : Option String :=
  match a with
  | none => b
  | some s => if s = "" then b else some s

/-- JavaScript `v || d` for an optional number (`undefined` and `0` are
falsy), as in `error.timestamp || Date.now()`. -/
def jsOrInt (v : Option ℤ) (d : ℤ) : ℤ :=
  match v with
  | none => d
  | some x => if x = 0 then d else x

/-- Whether an `Except`-modelled operation succeeds. -/
def exceptOk {ε α : Type} : Except ε α → Bool
  | .ok _ => true
  | .error _ => false

/-- `FailureInfo` from src/core/evidence-collector.ts. -/
structure FailureInfo where
  name : String
  error : String
  type : Option String
deriving DecidableEq

/-- `ScreenshotEvidence` from src/core/evidence-collector.ts. -/
structure ScreenshotEvidence where
  path : String
  type : String
  captured : Bool
  error : Option String
deriving DecidableEq

/-- `DOMSnapshotEvidence` from src/core/evidence-collector.ts. -/
structure DOMSnapshotEvidence where
  path : String
  size : ℕ
  captured : Bool
  error : Option String
deriving DecidableEq

/-- One mapped entry of `ConsoleErrorsEvidence.errors`. -/
structure CollectedConsoleError where
  type : String
  message : Option String
  location : Option String
  timestamp : ℤ
  stack : Option String
deriving DecidableEq

/-- `ConsoleErrorsEvidence` from src/core/evidence-collector.ts (`captured`
is optional and only set on failure). -/
structure ConsoleErrorsEvidence where
  count : ℕ
  errors : List CollectedConsoleError
  captured : Option Bool
  error : Option String
deriving DecidableEq

/-- One mapped entry of `NetworkFailuresEvidence.failures`. -/
structure CollectedNetworkFailure where
  url : String
  status : Option ℤ
  error : Option String
  timestamp : ℤ
deriving DecidableEq

/-- `NetworkFailuresEvidence` from src/core/evidence-collector.ts. -/
structure NetworkFailuresEvidence where
  count : ℕ
  failures : List CollectedNetworkFailure
  captured : Option Bool
  error : Option String
deriving DecidableEq

/-- `PerformanceMetricsEvidence.navigation` from
src/core/evidence-collector.ts. -/
structure NavTiming where
  domContentLoaded : ℚ
  loadComplete : ℚ
  redirectTime : ℚ
  dnsTime : ℚ
  connectTime : ℚ
  responseTime : ℚ
deriving DecidableEq

/-- One paint entry of `PerformanceMetricsEvidence.paint`. -/
structure PaintEntry where
  name : String
  startTime : ℚ
deriving DecidableEq

/-- One slow request of `PerformanceMetricsEvidence.resources`. -/
structure SlowRequest where
  name : String
  duration : ℚ
deriving DecidableEq

/-- `PerformanceMetricsEvidence.resources` from
src/core/evidence-collector.ts. -/
structure ResourceSummary where
  total : ℕ
  byType : List (String × ℕ)
  slowRequests : List SlowRequest
deriving DecidableEq

/-- `PerformanceMetricsEvidence.memory` from
src/core/evidence-collector.ts. -/
structure HeapInfo where
  usedJSHeapSize : ℤ
  totalJSHeapSize : ℤ
  jsHeapSizeLimit : ℤ
deriving DecidableEq

/-- The record computed inside the page by the `capturePerformanceMetrics`
evaluation. -/
structure PerfPayload where
  navigation : Option NavTiming
  paint : List PaintEntry
  resources : ResourceSummary
  memory : Option HeapInfo
  timestamp : ℤ
deriving DecidableEq

/-- `PerformanceMetricsEvidence` from src/core/evidence-collector.ts. -/
structure PerformanceMetricsEvidence where
  navigation : Option NavTiming
  paint : List PaintEntry
  resources : ResourceSummary
  memory : Option HeapInfo
  timestamp : ℤ
  captured : Option Bool
  error : Option String
deriving DecidableEq

/-- The record computed inside the page by the `captureLocalStorageState`
evaluation. -/
structure StoragePayload where
  localStorage : List (String × String)
  sessionStorage : List (String × String)
  cookies : String
deriving DecidableEq

/-- `StorageStateEvidence` from src/core/evidence-collector.ts. -/
structure StorageStateEvidence where
  localStorage : List (String × String)
  sessionStorage : List (String × String)
  cookies : String
  captured : Option Bool
  error : Option String
deriving DecidableEq

/-- One interactive element of `AccessibilityEvidence`. -/
structure InteractiveElement where
  tagName : String
  role : String
  ariaLabel : Option String
  ariaLabelledBy : Option String
  ariaDescribedBy : Option String
  tabIndex : ℤ
  hasText : Bool
deriving DecidableEq

/-- One heading of `AccessibilityEvidence`. -/
structure HeadingEntry where
  level : ℤ
  text : String
  hasId : Bool
deriving DecidableEq

/-- The record computed inside the page by the `captureAccessibilityTree`
evaluation. -/
structure A11yPayload where
  interactiveElements : List InteractiveElement
  headings : List HeadingEntry
  title : String
  lang : String
  hasSkipLink : Bool
deriving DecidableEq

/-- `AccessibilityEvidence` from src/core/evidence-collector.ts. -/
structure AccessibilityEvidence where
  interactiveElements : List InteractiveElement
  headings : List HeadingEntry
  title : String
  lang : String
  hasSkipLink : Bool
  captured : Option Bool
  error : Option String
deriving DecidableEq

/-- A raw entry of `(page as any)._consoleErrors` (duck-typed, so every
field is optional). -/
structure RawConsoleError where
  type : Option String
  text : Option String
  message : Option String
  location : Option String
  timestamp : Option ℤ
  stackTrace : Option String
deriving DecidableEq

/-- A raw entry of `(page as any)._networkFailures`. -/
structure RawNetworkFailure where
  url : String
  status : Option ℤ
  failure : Option String
  timestamp : Option ℤ
deriving DecidableEq

/-- `EvidenceBundle` from src/core/evidence-collector.ts.  The per-category
fields are optional in the interface and populated from whichever
sub-captures settle fulfilled. -/
structure EvidenceBundle where
  id : String
  timestamp : String
  testName : String
  errorMessage : String
  url : String
  viewport : Option (ℤ × ℤ)
  userAgent : String
  screenshot : Option ScreenshotEvidence
  domSnapshot : Option DOMSnapshotEvidence
  consoleErrors : Option ConsoleErrorsEvidence
  networkFailures : Option NetworkFailuresEvidence
  performanceMetrics : Option PerformanceMetricsEvidence
  localStorage : Option StorageStateEvidence
  accessibility : Option AccessibilityEvidence
deriving DecidableEq

/-- The behaviour of the page session and of the per-category file writes
during one `collect` call: each fallible primitive either yields its value
or throws with a message.  The filesystem plumbing outside the seven
sub-captures (the bundle `mkdir` and the final manifest write) is modelled
as succeeding, which is what spec §4.3's "always write a JSON manifest"
presumes. -/
structure CollectEnv where
  pageUrl : String
  viewport : Option (ℤ × ℤ)
  userAgent : String
  screenshotOp : Except String Unit
  domSnapshotOp : Except String String
  domWrite : Except String Unit
  rawConsoleErrors : List RawConsoleError
  consoleWrite : Except String Unit
  rawNetworkFailures : List RawNetworkFailure
  networkWrite : Except String Unit
  perfOp : Except String PerfPayload
  perfWrite : Except String Unit
  storageOp : Except String StoragePayload
  storageWrite : Except String Unit
  a11yOp : Except String A11yPayload
  a11yWrite : Except String Unit

/-- `generateEvidenceId` from src/core/evidence-collector.ts: the ISO
timestamp with `:`/`.` replaced by `-`, then `-`, then the test name with
every non-alphanumeric character replaced by `-`, lowercased. -/
def generateEvidenceId (isoTimestamp name : String) : String :=
  let ts := String.map (fun c => if c = Char.ofNat 58 ∨ c = Char.ofNat 46 then Char.ofNat 45 else c) isoTimestamp
  let tn := (name.toList.map (fun c => if c.isAlphanum then c.toLower else Char.ofNat 45)).asString
  ts ++ "-" ++ tn

/-- `captureScreenshot` from src/core/evidence-collector.ts. -/
def captureScreenshot (shot : Except String Unit) (dir : String) :
    ScreenshotEvidence :=
  match shot with
  | .ok _ =>
      { path := dir ++ "/failure-screenshot.png", type := "full-page",
        captured := true, error := none }
  | .error msg => { path := "", type := "", captured := false, error := some msg }

/-- `captureDOMSnapshot` from src/core/evidence-collector.ts: the page
evaluation producing the cleaned HTML and the file write both live inside
the same `try`. -/
def captureDOMSnapshot (domEval : Except String String)
    (write : Except String Unit) (dir : String) : DOMSnapshotEvidence :=
  match domEval with
  | .error msg => { path := "", size := 0, captured := false, error := some msg }
  | .ok html =>
      match write with
      | .error msg => { path := "", size := 0, captured := false, error := some msg }
      | .ok _ =>
          { path := dir ++ "/dom-snapshot.html", size := html.length,
            captured := true, error := none }

/-- `captureConsoleErrors` from src/core/evidence-collector.ts. -/
def captureConsoleErrors (raw : List RawConsoleError)
    (write : Except String Unit) (now : ℤ) : ConsoleErrorsEvidence :=
  let errorData : ConsoleErrorsEvidence :=
    { count := raw.length,
      errors := raw.map (fun e =>
        { type := jsOrStr e.type "error",
          message := jsOrOptStr e.text e.message,
          location := e.location,
          timestamp := jsOrInt e.timestamp now,
          stack := e.stackTrace }),
      captured := none, error := none }
  match write with
  | .ok _ => errorData
  | .error msg =>
      { count := 0, errors := [], captured := some false, error := some msg }

/-- `captureNetworkFailures` from src/core/evidence-collector.ts. -/
def captureNetworkFailures (raw : List RawNetworkFailure)
    (write : Except String Unit) (now : ℤ) : NetworkFailuresEvidence :=
  let networkData : NetworkFailuresEvidence :=
    { count := raw.length,
      failures := raw.map (fun f =>
        { url := f.url, status := f.status, error := f.failure,
          timestamp := jsOrInt f.timestamp now }),
      captured := none, error := none }
  match write with
  | .ok _ => networkData
  | .error msg =>
      { count := 0, failures := [], captured := some false, error := some msg }

/-- `capturePerformanceMetrics` from src/core/evidence-collector.ts. -/
def capturePerformanceMetrics (perfEval : Except String PerfPayload)
    (write : Except String Unit) (now : ℤ) : PerformanceMetricsEvidence :=
  let failed : String → PerformanceMetricsEvidence := fun msg =>
    { navigation := none, paint := [],
      resources := { total := 0, byType := [], slowRequests := [] },
      memory := none, timestamp := now, captured := some false,
      error := some msg }
  match perfEval with
  | .error msg => failed msg
  | .ok p =>
      match write with
      | .error msg => failed msg
      | .ok _ =>
          { navigation := p.navigation, paint := p.paint,
            resources := p.resources, memory := p.memory,
            timestamp := p.timestamp, captured := none, error := none }

/-- `captureLocalStorageState` from src/core/evidence-collector.ts. -/
def captureLocalStorageState (storageEval : Except String StoragePayload)
    (write : Except String Unit) : StorageStateEvidence :=
  let failed : String → StorageStateEvidence := fun msg =>
    { localStorage := [], sessionStorage := [], cookies := "",
      captured := some false, error := some msg }
  match storageEval with
  | .error msg => failed msg
  | .ok st =>
      match write with
      | .error msg => failed msg
      | .ok _ =>
          { localStorage := st.localStorage, sessionStorage := st.sessionStorage,
            cookies := st.cookies, captured := none, error := none }

/-- `captureAccessibilityTree` from src/core/evidence-collector.ts. -/
def captureAccessibilityTree (a11yEval : Except String A11yPayload)
    (write : Except String Unit) : AccessibilityEvidence :=
  let failed : String → AccessibilityEvidence := fun msg =>
    { interactiveElements := [], headings := [], title := "", lang := "",
      hasSkipLink := false, captured := some false, error := some msg }
  match a11yEval with
  | .error msg => failed msg
  | .ok a =>
      match write with
      | .error msg => failed msg
      | .ok _ =>
          { interactiveElements := a.interactiveElements, headings := a.headings,
            title := a.title, lang := a.lang, hasSkipLink := a.hasSkipLink,
            captured := none, error := none }

/-- Result of a `collect` call: the returned bundle and the manifest
written as `evidence.json`. -/
structure CollectResult where
  bundle : EvidenceBundle
  manifest : Option EvidenceBundle
deriving DecidableEq

/-- `collect` from src/core/evidence-collector.ts.  Every sub-capture
catches its own exception and resolves with a `captured: false` record, so
each of the seven `Promise.allSettled` slots is fulfilled and merged into
the bundle, and the manifest is written afterwards in every case. -/
def collect (env : CollectEnv) (failure : FailureInfo) (nowIso : String)
    (now : ℤ) (baseDir : String) : CollectResult :=
  let evidenceId := generateEvidenceId nowIso failure.name
  let evidenceDir := baseDir ++ "/" ++ evidenceId
  let bundle : EvidenceBundle :=
    { id := evidenceId,
      timestamp := nowIso,
      testName := failure.name,
      errorMessage := failure.error,
      url := env.pageUrl,
      viewport := env.viewport,
      userAgent := env.userAgent,
      screenshot := some (captureScreenshot env.screenshotOp evidenceDir),
      domSnapshot := some (captureDOMSnapshot env.domSnapshotOp env.domWrite evidenceDir),
      consoleErrors := some (captureConsoleErrors env.rawConsoleErrors env.consoleWrite now),
      networkFailures := some (captureNetworkFailures env.rawNetworkFailures env.networkWrite now),
      performanceMetrics := some (capturePerformanceMetrics env.perfOp env.perfWrite now),
      localStorage := some (captureLocalStorageState env.storageOp env.storageWrite),
      accessibility := some (captureAccessibilityTree env.a11yOp env.a11yWrite) }
  { bundle := bundle, manifest := some bundle }


/-- C6: for every page session behaviour and failure description, collect
completes and writes the evidence.json manifest (equal to the returned
bundle) no matter which sub-captures fail; and when the screenshot capture
throws while the other six sub-captures succeed, the bundle has
screenshot.captured = false with the thrown message as its error string,
domSnapshot.captured = true, and the optional captured field of the other
five categories absent (hence not false). -/
theorem collect_always_manifest_screenshot_isolated :
    (∀ (env : CollectEnv) (failure : FailureInfo) (nowIso : String) (now : ℤ)
       (baseDir : String),
      (collect env failure nowIso now baseDir).manifest =
        some (collect env failure nowIso now baseDir).bundle) ∧
    (∀ (env : CollectEnv) (failure : FailureInfo) (nowIso : String) (now : ℤ)
       (baseDir : String) (emsg : String),
      env.screenshotOp = Except.error emsg →
      exceptOk env.domSnapshotOp = true → exceptOk env.domWrite = true →
      exceptOk env.consoleWrite = true → exceptOk env.networkWrite = true →
      exceptOk env.perfOp = true → exceptOk env.perfWrite = true →
      exceptOk env.storageOp = true → exceptOk env.storageWrite = true →
      exceptOk env.a11yOp = true → exceptOk env.a11yWrite = true →
      ((collect env failure nowIso now baseDir).bundle.screenshot.map
          ScreenshotEvidence.captured = some false ∧
       (collect env failure nowIso now baseDir).bundle.screenshot.bind
          ScreenshotEvidence.error = some emsg ∧
       (collect env failure nowIso now baseDir).bundle.domSnapshot.map
          DOMSnapshotEvidence.captured = some true ∧
       (collect env failure nowIso now baseDir).bundle.consoleErrors.map
          ConsoleErrorsEvidence.captured = some none ∧
       (collect env failure nowIso now baseDir).bundle.networkFailures.map
          NetworkFailuresEvidence.captured = some none ∧
       (collect env failure nowIso now baseDir).bundle.performanceMetrics.map
          PerformanceMetricsEvidence.captured = some none ∧
       (collect env failure nowIso now baseDir).bundle.localStorage.map
          StorageStateEvidence.captured = some none ∧
       (collect env failure nowIso now baseDir).bundle.accessibility.map
          AccessibilityEvidence.captured = some none)) := by
  constructor
  · intro env failure nowIso now baseDir
    rfl
  · intro env failure nowIso now baseDir emsg hshot hdom hdomw hconw hnetw
      hperf hperfw hstor hstorw ha11y ha11yw
    rcases hde : env.domSnapshotOp with d | d
    · rw [hde] at hdom; simp [exceptOk] at hdom
    rcases hdw : env.domWrite with w1 | w1
    · rw [hdw] at hdomw; simp [exceptOk] at hdomw
    rcases hcw : env.consoleWrite with w2 | w2
    · rw [hcw] at hconw; simp [exceptOk] at hconw
    rcases hnw : env.networkWrite with w3 | w3
    · rw [hnw] at hnetw; simp [exceptOk] at hnetw
    rcases hpe : env.perfOp with p | p
    · rw [hpe] at hperf; simp [exceptOk] at hperf
    rcases hpw : env.perfWrite with w4 | w4
    · rw [hpw] at hperfw; simp [exceptOk] at hperfw
    rcases hse : env.storageOp with st | st
    · rw [hse] at hstor; simp [exceptOk] at hstor
    rcases hsw : env.storageWrite with w5 | w5
    · rw [hsw] at hstorw; simp [exceptOk] at hstorw
    rcases hae : env.a11yOp with a | a
    · rw [hae] at ha11y; simp [exceptOk] at ha11y
    rcases haw : env.a11yWrite with w6 | w6
    · rw [haw] at ha11yw; simp [exceptOk] at ha11yw
    refine ⟨?_, ?_, ?_, ?_, ?_, ?_, ?_, ?_⟩ <;>
      simp [collect, captureScreenshot, captureDOMSnapshot, captureConsoleErrors,
        captureNetworkFailures, capturePerformanceMetrics,
        captureLocalStorageState, captureAccessibilityTree,
        hshot, hde, hdw, hcw, hnw, hpe, hpw, hse, hsw, hae, haw]

/-- A concrete environment in which only the screenshot capture throws. -/
def screenshotFailEnv : CollectEnv :=
  { pageUrl := "https://example.test/page",
    viewport := some (1280, 720),
    userAgent := "test-agent",
    screenshotOp := Except.error "page crashed during screenshot",
    domSnapshotOp := Except.ok "<html><head></head><body>ok</body></html>",
    domWrite := Except.ok (),
    rawConsoleErrors := [],
    consoleWrite := Except.ok (),
    rawNetworkFailures := [],
    networkWrite := Except.ok (),
    perfOp := Except.ok
      { navigation := none, paint := [], resources := { total := 0, byType := [], slowRequests := [] },
        memory := none, timestamp := 0 },
    perfWrite := Except.ok (),
    storageOp := Except.ok { localStorage := [], sessionStorage := [], cookies := "" },
    storageWrite := Except.ok (),
    a11yOp := Except.ok
      { interactiveElements := [], headings := [], title := "t", lang := "en",
        hasSkipLink := false },
    a11yWrite := Except.ok () }

/-- C6 witness: the isolation property instantiated at a concrete
environment in which only the screenshot capture throws. -/
theorem collect_always_manifest_screenshot_isolated_witness :
    (collect screenshotFailEnv { name := "login test", error := "boom", type := none }
        "2026-01-01T00:00:00.000Z" 0 "artifacts/evidence").manifest =
      some (collect screenshotFailEnv { name := "login test", error := "boom", type := none }
        "2026-01-01T00:00:00.000Z" 0 "artifacts/evidence").bundle ∧
    ((collect screenshotFailEnv { name := "login test", error := "boom", type := none }
        "2026-01-01T00:00:00.000Z" 0 "artifacts/evidence").bundle.screenshot.map
        ScreenshotEvidence.captured = some false ∧
     (collect screenshotFailEnv { name := "login test", error := "boom", type := none }
        "2026-01-01T00:00:00.000Z" 0 "artifacts/evidence").bundle.screenshot.bind
        ScreenshotEvidence.error = some "page crashed during screenshot" ∧
     (collect screenshotFailEnv { name := "login test", error := "boom", type := none }
        "2026-01-01T00:00:00.000Z" 0 "artifacts/evidence").bundle.domSnapshot.map
        DOMSnapshotEvidence.captured = some true ∧
     (collect screenshotFailEnv { name := "login test", error := "boom", type := none }
        "2026-01-01T00:00:00.000Z" 0 "artifacts/evidence").bundle.consoleErrors.map
        ConsoleErrorsEvidence.captured = some none ∧
     (collect screenshotFailEnv { name := "login test", error := "boom", type := none }
        "2026-01-01T00:00:00.000Z" 0 "artifacts/evidence").bundle.networkFailures.map
        NetworkFailuresEvidence.captured = some none ∧
     (collect screenshotFailEnv { name := "login test", error := "boom", type := none }
        "2026-01-01T00:00:00.000Z" 0 "artifacts/evidence").bundle.performanceMetrics.map
        PerformanceMetricsEvidence.captured = some none ∧
     (collect screenshotFailEnv { name := "login test", error := "boom", type := none }
        "2026-01-01T00:00:00.000Z" 0 "artifacts/evidence").bundle.localStorage.map
        StorageStateEvidence.captured = some none ∧
     (collect screenshotFailEnv { name := "login test", error := "boom", type := none }
        "2026-01-01T00:00:00.000Z" 0 "artifacts/evidence").bundle.accessibility.map
        AccessibilityEvidence.captured = some none) :=
  ⟨collect_always_manifest_screenshot_isolated.1 screenshotFailEnv
      { name := "login test", error := "boom", type := none }
      "2026-01-01T00:00:00.000Z" 0 "artifacts/evidence",
   collect_always_manifest_screenshot_isolated.2 screenshotFailEnv
      { name := "login test", error := "boom", type := none }
      "2026-01-01T00:00:00.000Z" 0 "artifacts/evidence"
      "page crashed during screenshot" rfl rfl rfl rfl rfl rfl rfl rfl rfl rfl rfl⟩

end Collector
